import Mathlib

/-!
Shallow embedding of the authentication slice of the Expense-Tracker-App
backend: the auth controller (register, login, forgotPassword,
resetPassword), the role-authorization middleware, and the user router
wiring, together with models of the bcrypt and jsonwebtoken primitives
they call.

Conventions of the embedding:
- A mongoose user document is a `User` record; the store is a `List User`
  and `User.findOne` is `List.find?` over it.
- JavaScript falsy string fields (missing or empty) are modelled as the
  empty string; optional mongoose fields are `Option`.
- `bcrypt.hash(p, cost)` is salted in the real library but deterministic
  per (plaintext, salt); the model keeps the determinism that matters for
  the spec (a hash is a function of the plaintext that is never the
  plaintext itself, and compare succeeds exactly on the hashed plaintext).
- `jwt.sign(payload, secret, {expiresIn})` in the jsonwebtoken library
  deterministically encodes the payload, the secret, the expiresIn value
  and an issued-at (iat) claim in whole seconds; a token is modelled as
  the record of those four components, so two tokens are equal exactly
  when that data coincides.
- A handler finishes in one of three ways: `Outcome.json` for
  res.status(s).json(...), `Outcome.err` for next(new CustomError(...)),
  and `Outcome.hang` when the handler returns without sending any
  terminal response (the forgotPassword success path).
-/

/-- Signed JWT, modelled as the data the jsonwebtoken library signs:
payload claim, secret, expiresIn option, and the iat claim (whole seconds
since epoch at signing time). -/
structure Jwt where
  emailClaim : String
  secret : String
  expiresIn : String
  iat : Nat
deriving DecidableEq, Repr

/-- jwt.sign({ email }, secret, { expiresIn }) at time nowMs (milliseconds);
the library stamps iat = floor(nowMs / 1000). -/
def jwtSign (email secret expiresIn : String) (nowMs : Nat) : Jwt :=
  ⟨email, secret, expiresIn, nowMs / 1000⟩

/-- bcrypt.hash(plain, cost): modelled as a deterministic injective
encoding that prefixes a bcrypt-style header, so a hash is never the
plaintext. -/
def bcryptHash (plain : String) (cost : Nat) : String :=
  "$2b$" ++ toString cost ++ "$" ++ plain

/-- bcrypt.compare(plain, hashed): true exactly when hashed is the stored
hash of plain at the cost the controller always uses (10). -/
def bcryptCompare (plain hashed : String) : Bool :=
  hashed == bcryptHash plain 10

/-- A persisted user document (server/src/models/userModel.js). -/
structure User where
  id : Nat
  name : String
  email : String
  password : String
  role : String
  balance : Int
  resetToken : Option Jwt
  resetTokenExpiration : Option Nat
deriving DecidableEq, Repr

/-- User.findOne({ email }). -/
def findOneByEmail (store : List User) (email : String) : Option User :=
  store.find? (fun u => u.email == email)

/-- existUser.save(): mongoose persists the mutated document in place;
modelled as replacing the document with the matching id. -/
def saveUser (store : List User) (u : User) : List User :=
  store.map (fun v => if v.id == u.id then u else v)

/-- Outcome of one request: a JSON response, an error handed to next(),
or no terminal response at all. -/
inductive Outcome where
  | json (status : Nat) (message : String)
  | err (status : Nat) (message : String)
  | hang
deriving DecidableEq, Repr

/-- Request body of POST /api/auth/register; role is optional and
mongoose defaults it to "user". -/
structure RegisterReq where
  name : String
  email : String
  password : String
  role : Option String
deriving Repr

/-- The register handler (authController). Checks the three required
fields, rejects a duplicate email, hashes the password with cost 10 and
appends the new document to the store. -/
def register (req : RegisterReq) (store : List User) (nextId : Nat) :
    Outcome × List User :=
  if req.name == "" || req.email == "" || req.password == "" then
    (.err 400 "Input fields are empty. Please fill the fields.", store)
  else
    match findOneByEmail store req.email with
    | some _ =>
        (.err 400 "User already registered. Please use login for process.", store)
    | none =>
        let hashPassword := bcryptHash req.password 10
        let newUser : User :=
          { id := nextId, name := req.name, email := req.email,
            password := hashPassword, role := req.role.getD "user",
            balance := 0, resetToken := none, resetTokenExpiration := none }
        (.json 201 "New user created.", store ++ [newUser])

/-- Request body of POST /api/auth/login. -/
structure LoginReq where
  email : String
  password : String
deriving Repr

/-- Session bearer token issued on login. -/
structure SessionJwt where
  userId : Nat
  role : String
  secret : String
  expiresIn : String
deriving DecidableEq, Repr

/-- What the login handler did: the response the client observes, whether
bcrypt.compare was ever invoked, a second error passed to next() after a
response was already committed (the framework drops it), and the cookie
set on success. -/
structure LoginResult where
  outcome : Outcome
  compareCalled : Bool
  suppressedError : Option (Nat × String)
  cookie : Option SessionJwt
deriving DecidableEq, Repr

/-- The login handler (authController). When no user matches the email
the source calls next(err) WITHOUT returning, so execution falls through
to existUser.password, which throws a TypeError on the null document
before bcrypt.compare is ever invoked; the catch block passes a second
500 error to next(), which the framework ignores because the 400 error
response was already committed. The client observes the 400. -/
def login (req : LoginReq) (store : List User) (secret : String) :
    LoginResult :=
  if req.email == "" || req.password == "" then
    { outcome := .err 400 "Input fields are empty.",
      compareCalled := false, suppressedError := none, cookie := none }
  else
    match findOneByEmail store req.email with
    | none =>
        { outcome := .err 400
            "User not registered. Please create account using register and login again.",
          compareCalled := false,
          suppressedError := some (500, "TypeError: cannot read password of null"),
          cookie := none }
    | some existUser =>
        if bcryptCompare req.password existUser.password then
          { outcome := .json 200 "Login successful.",
            compareCalled := true, suppressedError := none,
            cookie := some ⟨existUser.id, existUser.role, secret, "1h"⟩ }
        else
          { outcome := .err 400 "Password incorrect. Please try again",
            compareCalled := true, suppressedError := none, cookie := none }

/-- What the forgotPassword handler did: outcome, resulting store, and
the (recipient, subject) of the dispatched mail, if any. -/
structure ForgotResult where
  outcome : Outcome
  store : List User
  emailSent : Option (String × String)
deriving DecidableEq, Repr

/-- The user document as forgotPassword rewrites it at time nowMs. -/
def issueResetToken (u : User) (secret : String) (nowMs : Nat) : User :=
  { u with
    resetToken := some (jwtSign u.email secret "30m" nowMs),
    resetTokenExpiration := some (nowMs + 18000000) }

/-- The forgotPassword handler (authController). Signs a 30-minute jwt
over the email claim, persists it with an expiration of now + 18000000 ms
(5 hours), dispatches the notification mail — and then returns without
sending any terminal HTTP response. -/
def forgotPassword (email : String) (store : List User) (secret : String)
    (nowMs : Nat) : ForgotResult :=
  if email == "" then
    ⟨.err 400 "Input filed is empty", store, none⟩
  else
    match findOneByEmail store email with
    | none => ⟨.err 404 "User not found.", store, none⟩
    | some existUser =>
        ⟨.hang,
         saveUser store (issueResetToken existUser secret nowMs),
         some (existUser.email, "Password reset for Financial Tracker")⟩

/-- The mongo query User.findOne({ resetToken: token,
resetTokenExpiration: { $gt: Date.now() } }): both fields must be present,
the token equal, and the expiration strictly in the future. -/
def resetMatch (token : Jwt) (nowMs : Nat) (u : User) : Bool :=
  u.resetToken == some token &&
    (match u.resetTokenExpiration with
     | some e => decide (nowMs < e)
     | none => false)

/-- The user document as resetPassword rewrites it. -/
def consumeResetToken (u : User) (newPassword : String) : User :=
  { u with
    password := bcryptHash newPassword 10,
    resetToken := none,
    resetTokenExpiration := none }

/-- The resetPassword handler (authController). Requires a non-empty new
password, looks up the document holding the unexpired token, replaces the
stored hash with bcrypt.hash(password, 10), clears both reset fields and
responds 200. -/
def resetPassword (token : Jwt) (password : String) (store : List User)
    (nowMs : Nat) : Outcome × List User :=
  if password == "" then
    (.err 400 "Enter your new password.", store)
  else
    match store.find? (resetMatch token nowMs) with
    | none => (.err 404 "Password reset token expired or invalid.", store)
    | some existUser =>
        (.json 200 "Password reset successful.",
         saveUser store (consumeResetToken existUser password))

/-- Result of the role-authorization middleware: block with an error, or
fall through to the next handler. -/
inductive GuardResult where
  | block (status : Nat) (message : String)
  | proceed
deriving DecidableEq, Repr

/-- The authorizationRoles middleware: blocks with 401 when req.user is
absent or its role is not in the allow-list. reqUserRole models
req.user?.role (none when validateToken attached no user). -/
def authorizationRoles (allowedRoles : List String)
    (reqUserRole : Option String) : GuardResult :=
  match reqUserRole with
  | none =>
      .block 401
        "You are unauthorized for this action. Please contact system administration."
  | some role =>
      if allowedRoles.contains role then .proceed
      else
        .block 401
          "You are unauthorized for this action. Please contact system administration."

/-- The four protected user routes of the router. -/
inductive Route where
  | getUsers
  | getUserByID
  | updateUser
  | deleteUser
deriving DecidableEq, Repr

/-- The allow-list each route passes to authorizationRoles in the router
(userRoutes). -/
def routeAllowList : Route → List String
  | .getUsers => ["admin"]
  | .getUserByID => ["user", "admin"]
  | .updateUser => ["user", "admin"]
  | .deleteUser => ["admin"]

/-- Outcome of dispatching an authenticated request through the guard
chain of a protected route: the guard error if blocked, and whether the
protected controller handler was invoked at all. -/
structure RouteResult where
  guardError : Option Outcome
  handlerInvoked : Bool
deriving DecidableEq, Repr

/-- Dispatch of an authenticated request (validateToken already attached
reqUserRole) through authorizationRoles for the given route. -/
def dispatch (r : Route) (reqUserRole : Option String) : RouteResult :=
  match authorizationRoles (routeAllowList r) reqUserRole with
  | .block s m => ⟨some (.err s m), false⟩
  | .proceed => ⟨none, true⟩

/-- Ids of the stored documents are pairwise distinct (mongo object ids). -/
def uniqueIds (store : List User) : Prop :=
  (store.map User.id).Nodup

/-! ### Helper lemmas about the primitives and the store -/

/-- A bcrypt hash is strictly longer than its plaintext, hence never equal
to it. -/
theorem bcryptHash_ne_plain (p : String) (c : Nat) : bcryptHash p c ≠ p := by
  intro h
  have hlen := congrArg String.length h
  have h4 : ("$2b$" : String).length = 4 := rfl
  have h1 : ("$" : String).length = 1 := rfl
  simp only [bcryptHash, String.length_append, h4, h1] at hlen
  omega

/-- The deterministic hash model is injective at a fixed cost. -/
theorem bcryptHash_inj {a b : String} {c : Nat}
    (h : bcryptHash a c = bcryptHash b c) : a = b := by
  have hd := congrArg String.data h
  simp [bcryptHash, String.data_append] at hd
  exact String.ext hd

/-- bcrypt.compare of a plaintext against the hash of a different
plaintext fails. -/
theorem bcryptCompare_of_ne {a b : String} (h : a ≠ b) :
    bcryptCompare a (bcryptHash b 10) = false := by
  simp only [bcryptCompare, beq_eq_false_iff_ne, ne_eq]
  intro he
  exact h (bcryptHash_inj he.symm)

/-- Replacing a document never changes the id column of the store. -/
theorem map_id_saveUser (s : List User) (u : User) :
    (saveUser s u).map User.id = s.map User.id := by
  induction s with
  | nil => rfl
  | cons h t ih =>
      by_cases hid : h.id = u.id
      · simp [saveUser, hid] at ih ⊢
        exact ih
      · simp [saveUser, hid] at ih ⊢
        exact ih

/-- Membership in a store after a save: the element is the saved document
or an untouched document with a different id. -/
theorem mem_saveUser {s : List User} {u w : User} (h : w ∈ saveUser s u) :
    w = u ∨ (w ∈ s ∧ w.id ≠ u.id) := by
  rcases List.mem_map.mp h with ⟨v, hv, hvw⟩
  by_cases hid : v.id = u.id
  · left
    simp [hid] at hvw
    exact hvw.symm
  · right
    simp [hid] at hvw
    subst hvw
    exact ⟨hv, hid⟩

/-- A document whose id differs from the saved one survives a save. -/
theorem mem_saveUser_of_ne {s : List User} {u v : User} (hv : v ∈ s)
    (hne : v.id ≠ u.id) : v ∈ saveUser s u :=
  List.mem_map.mpr ⟨v, hv, by simp [hne]⟩

/-- A successful findOne({email}) returns a document with that email. -/
theorem email_of_findOneByEmail {s : List User} {e : String} {u : User}
    (h : findOneByEmail s e = some u) : u.email = e := by
  have := List.find?_some h
  simpa using this

/-- Saving an update of the found document (same id, same email) leaves it
the document found by email, provided ids are unique. -/
theorem findOneByEmail_saveUser {s : List User} {e : String} {u u' : User}
    (hids : uniqueIds s) (hf : findOneByEmail s e = some u)
    (hid : u'.id = u.id) (he : u'.email = u.email) :
    findOneByEmail (saveUser s u') e = some u' := by
  induction s with
  | nil => simp [findOneByEmail] at hf
  | cons h t ih =>
      rw [uniqueIds, List.map_cons, List.nodup_cons] at hids
      by_cases hc : h.email = e
      · have hu : h = u := by
          simp [findOneByEmail, List.find?_cons, hc] at hf
          exact hf
        have hue : u'.email = e := by rw [he, ← hu, hc]
        have hhid : h.id = u'.id := by rw [hid, ← hu]
        simp [findOneByEmail, saveUser, List.find?_cons, hhid, hue]
      · have hf' : findOneByEmail t e = some u := by
          simpa [findOneByEmail, List.find?_cons, hc] using hf
        have hut : u ∈ t := List.mem_of_find?_eq_some hf'
        have hne : h.id ≠ u'.id := by
          rw [hid]
          intro hcontra
          exact hids.1 (by rw [hcontra]; exact List.mem_map_of_mem User.id hut)
        have ihr := ih (by rw [uniqueIds]; exact hids.2) hf'
        simpa [findOneByEmail, saveUser, List.find?_cons, hne, hc] using ihr

/-- uniqueIds is preserved by saving. -/
theorem uniqueIds_saveUser {s : List User} (u : User) (h : uniqueIds s) :
    uniqueIds (saveUser s u) := by
  rw [uniqueIds, map_id_saveUser]
  exact h

/-! ### Claim theorems -/

/-- C1: every password field persisted by register or resetPassword equals
the bcrypt hash (cost 10) of the submitted plaintext and is never the
plaintext itself; no other write path (forgotPassword, which only touches
the reset fields; login writes nothing) introduces a new password value. -/
theorem stored_password_always_hashed :
    (∀ p c, bcryptHash p c ≠ p) ∧
    (∀ req store nextId u, u ∈ (register req store nextId).2 →
        u ∈ store ∨
          (u.password = bcryptHash req.password 10 ∧ u.password ≠ req.password)) ∧
    (∀ token pw store nowMs u, u ∈ (resetPassword token pw store nowMs).2 →
        (∃ v ∈ store, u.password = v.password) ∨
          (u.password = bcryptHash pw 10 ∧ u.password ≠ pw)) ∧
    (∀ email store secret nowMs u,
        u ∈ (forgotPassword email store secret nowMs).store →
        ∃ v ∈ store, u.password = v.password) := by
  refine ⟨bcryptHash_ne_plain, ?_, ?_, ?_⟩
  · intro req store nextId u hu
    cases hempty : (req.name == "" || req.email == "" || req.password == "") with
    | true =>
        left
        simpa [register, hempty] using hu
    | false =>
        cases hfind : findOneByEmail store req.email with
        | some w =>
            left
            simpa [register, hempty, hfind] using hu
        | none =>
            simp [register, hempty, hfind] at hu
            rcases hu with hu | hu
            · left; exact hu
            · right
              refine ⟨by simp [hu], by simp [hu]; exact bcryptHash_ne_plain _ _⟩
  · intro token pw store nowMs u hu
    cases hempty : (pw == "") with
    | true =>
        simp [resetPassword, hempty] at hu
        exact Or.inl ⟨u, hu, rfl⟩
    | false =>
        cases hfind : store.find? (resetMatch token nowMs) with
        | none =>
            simp [resetPassword, hempty, hfind] at hu
            exact Or.inl ⟨u, hu, rfl⟩
        | some w =>
            simp [resetPassword, hempty, hfind] at hu
            rcases mem_saveUser hu with h | h
            · right
              subst h
              exact ⟨rfl, bcryptHash_ne_plain _ _⟩
            · exact Or.inl ⟨u, h.1, rfl⟩
  · intro email store secret nowMs u hu
    cases hempty : (email == "") with
    | true =>
        simp [forgotPassword, hempty] at hu
        exact ⟨u, hu, rfl⟩
    | false =>
        cases hfind : findOneByEmail store email with
        | none =>
            simp [forgotPassword, hempty, hfind] at hu
            exact ⟨u, hu, rfl⟩
        | some w =>
            simp [forgotPassword, hempty, hfind] at hu
            rcases mem_saveUser hu with h | h
            · exact ⟨w, List.mem_of_find?_eq_some hfind, by simp [h, issueResetToken]⟩
            · exact ⟨u, h.1, rfl⟩

/-- Witness for C1: concrete register, resetPassword and forgotPassword
runs, with the membership hypotheses discharged by evaluation. -/
theorem stored_password_always_hashed_witness :
    ((⟨7, "A", "a@x.com", bcryptHash "P1" 10, "user", 0, none, none⟩ : User) ∈
        (register ⟨"A", "a@x.com", "P1", none⟩ [] 7).2 ∧
      ((⟨7, "A", "a@x.com", bcryptHash "P1" 10, "user", 0, none, none⟩ : User) ∈ ([] : List User) ∨
        ((⟨7, "A", "a@x.com", bcryptHash "P1" 10, "user", 0, none, none⟩ : User).password
            = bcryptHash "P1" 10 ∧
          (⟨7, "A", "a@x.com", bcryptHash "P1" 10, "user", 0, none, none⟩ : User).password ≠ "P1"))) ∧
    ((⟨1, "A", "a@x.com", bcryptHash "P2" 10, "user", 0, none, none⟩ : User) ∈
        (resetPassword ⟨"a@x.com", "sec", "30m", 0⟩ "P2"
          [⟨1, "A", "a@x.com", bcryptHash "P1" 10, "user", 0,
            some ⟨"a@x.com", "sec", "30m", 0⟩, some 100⟩] 50).2 ∧
      ((∃ v ∈ [(⟨1, "A", "a@x.com", bcryptHash "P1" 10, "user", 0,
            some ⟨"a@x.com", "sec", "30m", 0⟩, some 100⟩ : User)],
          (⟨1, "A", "a@x.com", bcryptHash "P2" 10, "user", 0, none, none⟩ : User).password
            = v.password) ∨
        ((⟨1, "A", "a@x.com", bcryptHash "P2" 10, "user", 0, none, none⟩ : User).password
            = bcryptHash "P2" 10 ∧
          (⟨1, "A", "a@x.com", bcryptHash "P2" 10, "user", 0, none, none⟩ : User).password ≠ "P2"))) ∧
    ((issueResetToken ⟨1, "A", "a@x.com", bcryptHash "P1" 10, "user", 0, none, none⟩ "sec" 1000) ∈
        (forgotPassword "a@x.com"
          [⟨1, "A", "a@x.com", bcryptHash "P1" 10, "user", 0, none, none⟩] "sec" 1000).store ∧
      ∃ v ∈ [(⟨1, "A", "a@x.com", bcryptHash "P1" 10, "user", 0, none, none⟩ : User)],
        (issueResetToken ⟨1, "A", "a@x.com", bcryptHash "P1" 10, "user", 0, none, none⟩
            "sec" 1000).password = v.password) :=
  ⟨⟨by decide,
    stored_password_always_hashed.2.1 ⟨"A", "a@x.com", "P1", none⟩ [] 7
      ⟨7, "A", "a@x.com", bcryptHash "P1" 10, "user", 0, none, none⟩ (by decide)⟩,
   ⟨by decide,
    stored_password_always_hashed.2.2.1 ⟨"a@x.com", "sec", "30m", 0⟩ "P2"
      [⟨1, "A", "a@x.com", bcryptHash "P1" 10, "user", 0,
        some ⟨"a@x.com", "sec", "30m", 0⟩, some 100⟩] 50
      ⟨1, "A", "a@x.com", bcryptHash "P2" 10, "user", 0, none, none⟩ (by decide)⟩,
   ⟨by decide,
    stored_password_always_hashed.2.2.2 "a@x.com"
      [⟨1, "A", "a@x.com", bcryptHash "P1" 10, "user", 0, none, none⟩] "sec" 1000
      (issueResetToken ⟨1, "A", "a@x.com", bcryptHash "P1" 10, "user", 0, none, none⟩
        "sec" 1000) (by decide)⟩⟩

/-- C4: a login whose non-empty email matches no stored user yields the
400 user-not-registered error and never reaches bcrypt password
verification. -/
theorem login_unknown_email_fails_400 (req : LoginReq) (store : List User)
    (secret : String) (he : req.email ≠ "") (hp : req.password ≠ "")
    (hnone : findOneByEmail store req.email = none) :
    (login req store secret).outcome =
      .err 400 "User not registered. Please create account using register and login again." ∧
    (login req store secret).compareCalled = false := by
  simp [login, he, hp, hnone]

/-- Witness for C4: a concrete login against an empty store. -/
theorem login_unknown_email_fails_400_witness :
    ("a@x.com" : String) ≠ "" ∧ ("P1" : String) ≠ "" ∧
    findOneByEmail [] "a@x.com" = none ∧
    ((login ⟨"a@x.com", "P1"⟩ [] "sec").outcome =
        .err 400 "User not registered. Please create account using register and login again." ∧
      (login ⟨"a@x.com", "P1"⟩ [] "sec").compareCalled = false) :=
  ⟨by decide, by decide, rfl,
   login_unknown_email_fails_400 ⟨"a@x.com", "P1"⟩ [] "sec" (by decide) (by decide) rfl⟩

/-- C5: resetPassword with a non-empty password whose token matches no
stored document, or only documents whose expiration is at or before now,
fails with 404 and leaves the store entirely unchanged. -/
theorem resetPassword_invalid_or_expired_404 (token : Jwt) (pw : String)
    (store : List User) (nowMs : Nat) (hp : pw ≠ "")
    (hno : ∀ u ∈ store, u.resetToken = some token →
        ∀ e, u.resetTokenExpiration = some e → e ≤ nowMs) :
    resetPassword token pw store nowMs =
      (.err 404 "Password reset token expired or invalid.", store) := by
  have hfind : store.find? (resetMatch token nowMs) = none := by
    rw [List.find?_eq_none]
    intro u hu hmatch
    rw [resetMatch, Bool.and_eq_true] at hmatch
    obtain ⟨htok, hexp⟩ := hmatch
    cases hE : u.resetTokenExpiration with
    | none => rw [hE] at hexp; simp at hexp
    | some e =>
        rw [hE] at hexp
        simp at hexp
        exact absurd hexp (not_lt.mpr (hno u hu (by simpa using htok) e hE))
  simp [resetPassword, hp, hfind]

/-- Witness for C5: a concrete store whose only document holds the token
but expired before the request time. -/
theorem resetPassword_invalid_or_expired_404_witness :
    ("P2" : String) ≠ "" ∧
    (∀ u ∈ [(⟨1, "A", "a@x.com", bcryptHash "P1" 10, "user", 0,
        some ⟨"a@x.com", "sec", "30m", 0⟩, some 40⟩ : User)],
      u.resetToken = some ⟨"a@x.com", "sec", "30m", 0⟩ →
        ∀ e, u.resetTokenExpiration = some e → e ≤ 50) ∧
    resetPassword ⟨"a@x.com", "sec", "30m", 0⟩ "P2"
      [⟨1, "A", "a@x.com", bcryptHash "P1" 10, "user", 0,
        some ⟨"a@x.com", "sec", "30m", 0⟩, some 40⟩] 50 =
      (.err 404 "Password reset token expired or invalid.",
        [⟨1, "A", "a@x.com", bcryptHash "P1" 10, "user", 0,
          some ⟨"a@x.com", "sec", "30m", 0⟩, some 40⟩]) :=
  ⟨by decide,
   by
    intro u hu htok e he
    simp at hu
    subst hu
    simp at he
    omega,
   resetPassword_invalid_or_expired_404 _ _ _ _ (by decide)
     (by
      intro u hu htok e he
      simp at hu
      subst hu
      simp at he
      omega)⟩

/-- C7: registering with non-empty fields and an email that already
exists in the store fails with the duplicate-user 400 error and creates
no new record. -/
theorem register_duplicate_email_fails_400 (req : RegisterReq)
    (store : List User) (nextId : Nat)
    (hn : req.name ≠ "") (he : req.email ≠ "") (hp : req.password ≠ "")
    (hdup : ∃ v ∈ store, v.email = req.email) :
    register req store nextId =
      (.err 400 "User already registered. Please use login for process.", store) := by
  cases hfind : findOneByEmail store req.email with
  | none =>
      exfalso
      rw [findOneByEmail, List.find?_eq_none] at hfind
      obtain ⟨v, hv, hve⟩ := hdup
      exact hfind v hv (by simp [hve])
  | some w => simp [register, hn, he, hp, hfind]

/-- Witness for C7: a concrete second registration with an existing email
and different other fields. -/
theorem register_duplicate_email_fails_400_witness :
    ("B" : String) ≠ "" ∧ ("a@x.com" : String) ≠ "" ∧ ("P2" : String) ≠ "" ∧
    (∃ v ∈ [(⟨1, "A", "a@x.com", bcryptHash "P1" 10, "user", 0, none, none⟩ : User)],
      v.email = "a@x.com") ∧
    register ⟨"B", "a@x.com", "P2", some "admin"⟩
      [⟨1, "A", "a@x.com", bcryptHash "P1" 10, "user", 0, none, none⟩] 2 =
      (.err 400 "User already registered. Please use login for process.",
        [⟨1, "A", "a@x.com", bcryptHash "P1" 10, "user", 0, none, none⟩]) :=
  ⟨by decide, by decide, by decide, by decide,
   register_duplicate_email_fails_400 _ _ _ (by decide) (by decide) (by decide) (by decide)⟩

/-- C6: a forgotPassword for an existing email persists a document whose
resetTokenExpiration is the request time plus exactly 18000000 ms (5
hours), while the signed token it stores embeds the user email claim with
a 30-minute expiresIn. -/
theorem forgotPassword_expiry_five_hours (email secret : String)
    (store : List User) (nowMs : Nat) (u : User)
    (hids : uniqueIds store) (he : email ≠ "")
    (hu : findOneByEmail store email = some u) :
    ∃ doc, findOneByEmail (forgotPassword email store secret nowMs).store email
        = some doc ∧
      doc.resetTokenExpiration = some (nowMs + 18000000) ∧
      18000000 = 5 * 60 * 60 * 1000 ∧
      ∃ tok, doc.resetToken = some tok ∧
        tok.emailClaim = u.email ∧ tok.expiresIn = "30m" := by
  refine ⟨issueResetToken u secret nowMs, ?_, rfl, by norm_num,
    jwtSign u.email secret "30m" nowMs, rfl, rfl, rfl⟩
  have hstore : (forgotPassword email store secret nowMs).store
      = saveUser store (issueResetToken u secret nowMs) := by
    simp [forgotPassword, he, hu]
  rw [hstore]
  exact findOneByEmail_saveUser hids hu rfl rfl

/-- Witness for C6: a concrete forgotPassword run. -/
theorem forgotPassword_expiry_five_hours_witness :
    uniqueIds [(⟨1, "A", "a@x.com", bcryptHash "P1" 10, "user", 0, none, none⟩ : User)] ∧
    ("a@x.com" : String) ≠ "" ∧
    findOneByEmail [(⟨1, "A", "a@x.com", bcryptHash "P1" 10, "user", 0, none, none⟩ : User)]
      "a@x.com" = some ⟨1, "A", "a@x.com", bcryptHash "P1" 10, "user", 0, none, none⟩ ∧
    ∃ doc, findOneByEmail
        (forgotPassword "a@x.com"
          [⟨1, "A", "a@x.com", bcryptHash "P1" 10, "user", 0, none, none⟩]
          "sec" 1000).store "a@x.com" = some doc ∧
      doc.resetTokenExpiration = some (1000 + 18000000) ∧
      18000000 = 5 * 60 * 60 * 1000 ∧
      ∃ tok, doc.resetToken = some tok ∧
        tok.emailClaim =
          (⟨1, "A", "a@x.com", bcryptHash "P1" 10, "user", 0, none, none⟩ : User).email ∧
        tok.expiresIn = "30m" :=
  ⟨by unfold uniqueIds; decide, by decide, by decide,
   forgotPassword_expiry_five_hours "a@x.com" "sec"
     [⟨1, "A", "a@x.com", bcryptHash "P1" 10, "user", 0, none, none⟩] 1000
     ⟨1, "A", "a@x.com", bcryptHash "P1" 10, "user", 0, none, none⟩
     (by unfold uniqueIds; decide) (by decide) (by decide)⟩

/-- C8: on the forgotPassword success path the handler persists the reset
token and dispatches the mail but never sends any terminal HTTP response
back to the client. -/
theorem forgotPassword_success_sends_no_response (email secret : String)
    (store : List User) (nowMs : Nat) (u : User)
    (he : email ≠ "") (hu : findOneByEmail store email = some u) :
    (forgotPassword email store secret nowMs).outcome = .hang ∧
    (forgotPassword email store secret nowMs).store
      = saveUser store (issueResetToken u secret nowMs) ∧
    (forgotPassword email store secret nowMs).emailSent
      = some (u.email, "Password reset for Financial Tracker") := by
  simp [forgotPassword, he, hu]

/-- Witness for C8: a concrete forgotPassword run. -/
theorem forgotPassword_success_sends_no_response_witness :
    ("a@x.com" : String) ≠ "" ∧
    findOneByEmail [(⟨1, "A", "a@x.com", bcryptHash "P1" 10, "user", 0, none, none⟩ : User)]
      "a@x.com" = some ⟨1, "A", "a@x.com", bcryptHash "P1" 10, "user", 0, none, none⟩ ∧
    ((forgotPassword "a@x.com"
        [⟨1, "A", "a@x.com", bcryptHash "P1" 10, "user", 0, none, none⟩]
        "sec" 1000).outcome = .hang ∧
      (forgotPassword "a@x.com"
        [⟨1, "A", "a@x.com", bcryptHash "P1" 10, "user", 0, none, none⟩]
        "sec" 1000).store
        = saveUser [⟨1, "A", "a@x.com", bcryptHash "P1" 10, "user", 0, none, none⟩]
            (issueResetToken ⟨1, "A", "a@x.com", bcryptHash "P1" 10, "user", 0, none, none⟩
              "sec" 1000) ∧
      (forgotPassword "a@x.com"
        [⟨1, "A", "a@x.com", bcryptHash "P1" 10, "user", 0, none, none⟩]
        "sec" 1000).emailSent = some ("a@x.com", "Password reset for Financial Tracker")) :=
  ⟨by decide, by decide,
   forgotPassword_success_sends_no_response "a@x.com" "sec"
     [⟨1, "A", "a@x.com", bcryptHash "P1" 10, "user", 0, none, none⟩] 1000
     ⟨1, "A", "a@x.com", bcryptHash "P1" 10, "user", 0, none, none⟩
     (by decide) (by decide)⟩

/-- C9: on the admin-only routes (GET /users and DELETE /user/:id) an
authenticated role outside the allow-list is always blocked with 401 and
the protected handler is never invoked. -/
theorem admin_route_blocks_non_admin (r : Route) (role : String)
    (hr : r = Route.getUsers ∨ r = Route.deleteUser)
    (hrole : role ∉ routeAllowList r) :
    dispatch r (some role) =
      ⟨some (.err 401
        "You are unauthorized for this action. Please contact system administration."),
       false⟩ := by
  rcases hr with hr | hr <;> subst hr <;>
    simp [routeAllowList] at hrole <;>
    simp [dispatch, authorizationRoles, routeAllowList, hrole]

/-- Witness for C9: a plain user hitting GET /users. -/
theorem admin_route_blocks_non_admin_witness :
    (Route.getUsers = Route.getUsers ∨ Route.getUsers = Route.deleteUser) ∧
    ("user" : String) ∉ routeAllowList Route.getUsers ∧
    dispatch Route.getUsers (some "user") =
      ⟨some (.err 401
        "You are unauthorized for this action. Please contact system administration."),
       false⟩ :=
  ⟨Or.inl rfl, by decide,
   admin_route_blocks_non_admin Route.getUsers "user" (Or.inl rfl) (by decide)⟩

/-- C10: a successful resetPassword rewrites only password, resetToken
and resetTokenExpiration of the matched document; id, name, email, role
and balance are unchanged, and every other document survives untouched. -/
theorem resetPassword_preserves_other_fields (token : Jwt) (pw : String)
    (store : List User) (nowMs : Nat) (u : User)
    (hp : pw ≠ "") (hfind : store.find? (resetMatch token nowMs) = some u) :
    (resetPassword token pw store nowMs).2 = saveUser store (consumeResetToken u pw) ∧
    (consumeResetToken u pw).id = u.id ∧
    (consumeResetToken u pw).name = u.name ∧
    (consumeResetToken u pw).email = u.email ∧
    (consumeResetToken u pw).role = u.role ∧
    (consumeResetToken u pw).balance = u.balance ∧
    ∀ v ∈ store, v.id ≠ u.id → v ∈ (resetPassword token pw store nowMs).2 := by
  have hres : (resetPassword token pw store nowMs).2
      = saveUser store (consumeResetToken u pw) := by
    simp [resetPassword, hp, hfind]
  refine ⟨hres, rfl, rfl, rfl, rfl, rfl, ?_⟩
  intro v hv hne
  rw [hres]
  exact mem_saveUser_of_ne hv hne

/-- Witness for C10: a concrete successful reset in a two-user store. -/
theorem resetPassword_preserves_other_fields_witness :
    ("P2" : String) ≠ "" ∧
    ([(⟨1, "A", "a@x.com", bcryptHash "P1" 10, "admin", 7,
        some ⟨"a@x.com", "sec", "30m", 0⟩, some 100⟩ : User),
      ⟨2, "B", "b@x.com", bcryptHash "Q1" 10, "user", 3, none, none⟩].find?
        (resetMatch ⟨"a@x.com", "sec", "30m", 0⟩ 50)
      = some ⟨1, "A", "a@x.com", bcryptHash "P1" 10, "admin", 7,
          some ⟨"a@x.com", "sec", "30m", 0⟩, some 100⟩) ∧
    ((resetPassword ⟨"a@x.com", "sec", "30m", 0⟩ "P2"
        [⟨1, "A", "a@x.com", bcryptHash "P1" 10, "admin", 7,
          some ⟨"a@x.com", "sec", "30m", 0⟩, some 100⟩,
         ⟨2, "B", "b@x.com", bcryptHash "Q1" 10, "user", 3, none, none⟩] 50).2
      = saveUser
          [⟨1, "A", "a@x.com", bcryptHash "P1" 10, "admin", 7,
            some ⟨"a@x.com", "sec", "30m", 0⟩, some 100⟩,
           ⟨2, "B", "b@x.com", bcryptHash "Q1" 10, "user", 3, none, none⟩]
          (consumeResetToken
            ⟨1, "A", "a@x.com", bcryptHash "P1" 10, "admin", 7,
              some ⟨"a@x.com", "sec", "30m", 0⟩, some 100⟩ "P2") ∧
      (consumeResetToken
        ⟨1, "A", "a@x.com", bcryptHash "P1" 10, "admin", 7,
          some ⟨"a@x.com", "sec", "30m", 0⟩, some 100⟩ "P2").id
        = (⟨1, "A", "a@x.com", bcryptHash "P1" 10, "admin", 7,
            some ⟨"a@x.com", "sec", "30m", 0⟩, some 100⟩ : User).id ∧
      (consumeResetToken
        ⟨1, "A", "a@x.com", bcryptHash "P1" 10, "admin", 7,
          some ⟨"a@x.com", "sec", "30m", 0⟩, some 100⟩ "P2").name
        = (⟨1, "A", "a@x.com", bcryptHash "P1" 10, "admin", 7,
            some ⟨"a@x.com", "sec", "30m", 0⟩, some 100⟩ : User).name ∧
      (consumeResetToken
        ⟨1, "A", "a@x.com", bcryptHash "P1" 10, "admin", 7,
          some ⟨"a@x.com", "sec", "30m", 0⟩, some 100⟩ "P2").email
        = (⟨1, "A", "a@x.com", bcryptHash "P1" 10, "admin", 7,
            some ⟨"a@x.com", "sec", "30m", 0⟩, some 100⟩ : User).email ∧
      (consumeResetToken
        ⟨1, "A", "a@x.com", bcryptHash "P1" 10, "admin", 7,
          some ⟨"a@x.com", "sec", "30m", 0⟩, some 100⟩ "P2").role
        = (⟨1, "A", "a@x.com", bcryptHash "P1" 10, "admin", 7,
            some ⟨"a@x.com", "sec", "30m", 0⟩, some 100⟩ : User).role ∧
      (consumeResetToken
        ⟨1, "A", "a@x.com", bcryptHash "P1" 10, "admin", 7,
          some ⟨"a@x.com", "sec", "30m", 0⟩, some 100⟩ "P2").balance
        = (⟨1, "A", "a@x.com", bcryptHash "P1" 10, "admin", 7,
            some ⟨"a@x.com", "sec", "30m", 0⟩, some 100⟩ : User).balance ∧
      ∀ v ∈ [(⟨1, "A", "a@x.com", bcryptHash "P1" 10, "admin", 7,
              some ⟨"a@x.com", "sec", "30m", 0⟩, some 100⟩ : User),
             ⟨2, "B", "b@x.com", bcryptHash "Q1" 10, "user", 3, none, none⟩],
        v.id ≠ (⟨1, "A", "a@x.com", bcryptHash "P1" 10, "admin", 7,
            some ⟨"a@x.com", "sec", "30m", 0⟩, some 100⟩ : User).id →
          v ∈ (resetPassword ⟨"a@x.com", "sec", "30m", 0⟩ "P2"
            [⟨1, "A", "a@x.com", bcryptHash "P1" 10, "admin", 7,
              some ⟨"a@x.com", "sec", "30m", 0⟩, some 100⟩,
             ⟨2, "B", "b@x.com", bcryptHash "Q1" 10, "user", 3, none, none⟩] 50).2) :=
  ⟨by decide, by decide,
   resetPassword_preserves_other_fields ⟨"a@x.com", "sec", "30m", 0⟩ "P2"
     [⟨1, "A", "a@x.com", bcryptHash "P1" 10, "admin", 7,
       some ⟨"a@x.com", "sec", "30m", 0⟩, some 100⟩,
      ⟨2, "B", "b@x.com", bcryptHash "Q1" 10, "user", 3, none, none⟩] 50
     ⟨1, "A", "a@x.com", bcryptHash "P1" 10, "admin", 7,
       some ⟨"a@x.com", "sec", "30m", 0⟩, some 100⟩
     (by decide) (by decide)⟩

/-- C2 counterexample: when the new password equals the old plaintext, a
valid unexpired reset succeeds (200) yet the old plaintext still verifies
against the stored hash afterwards, so the claim as stated fails. -/
theorem resetPassword_old_plaintext_still_verifies :
    (resetPassword ⟨"a@x.com", "sec", "30m", 0⟩ "P1"
        [⟨1, "A", "a@x.com", bcryptHash "P1" 10, "user", 0,
          some ⟨"a@x.com", "sec", "30m", 0⟩, some 100⟩] 50).1 =
      .json 200 "Password reset successful." ∧
    bcryptCompare "P1"
      (((resetPassword ⟨"a@x.com", "sec", "30m", 0⟩ "P1"
          [⟨1, "A", "a@x.com", bcryptHash "P1" 10, "user", 0,
            some ⟨"a@x.com", "sec", "30m", 0⟩, some 100⟩] 50).2.headD
        ⟨1, "A", "a@x.com", bcryptHash "P1" 10, "user", 0, none, none⟩).password)
      = true := by
  decide

/-- C2 (amended): with a matching unexpired token and a non-empty new
password DIFFERENT from the old plaintext, resetPassword stores the hash
of the new password, clears both reset fields, responds 200, and
afterwards the old plaintext no longer verifies while the new one does. -/
theorem resetPassword_valid_token_success (token : Jwt) (pw oldPlain : String)
    (store : List User) (nowMs : Nat) (u : User)
    (hp : pw ≠ "") (hfind : store.find? (resetMatch token nowMs) = some u)
    (hold : u.password = bcryptHash oldPlain 10) (hdiff : oldPlain ≠ pw) :
    resetPassword token pw store nowMs =
      (.json 200 "Password reset successful.",
        saveUser store (consumeResetToken u pw)) ∧
    (consumeResetToken u pw).password = bcryptHash pw 10 ∧
    (consumeResetToken u pw).resetToken = none ∧
    (consumeResetToken u pw).resetTokenExpiration = none ∧
    bcryptCompare oldPlain (consumeResetToken u pw).password = false ∧
    bcryptCompare pw (consumeResetToken u pw).password = true := by
  refine ⟨by simp [resetPassword, hp, hfind], rfl, rfl, rfl, ?_, ?_⟩
  · exact bcryptCompare_of_ne hdiff
  · simp [bcryptCompare, consumeResetToken]

/-- Witness for the amended C2: a concrete reset from P1 to P2. -/
theorem resetPassword_valid_token_success_witness :
    ("P2" : String) ≠ "" ∧
    ([(⟨1, "A", "a@x.com", bcryptHash "P1" 10, "user", 0,
        some ⟨"a@x.com", "sec", "30m", 0⟩, some 100⟩ : User)].find?
        (resetMatch ⟨"a@x.com", "sec", "30m", 0⟩ 50)
      = some ⟨1, "A", "a@x.com", bcryptHash "P1" 10, "user", 0,
          some ⟨"a@x.com", "sec", "30m", 0⟩, some 100⟩) ∧
    (⟨1, "A", "a@x.com", bcryptHash "P1" 10, "user", 0,
        some ⟨"a@x.com", "sec", "30m", 0⟩, some 100⟩ : User).password
      = bcryptHash "P1" 10 ∧
    ("P1" : String) ≠ "P2" ∧
    (resetPassword ⟨"a@x.com", "sec", "30m", 0⟩ "P2"
        [⟨1, "A", "a@x.com", bcryptHash "P1" 10, "user", 0,
          some ⟨"a@x.com", "sec", "30m", 0⟩, some 100⟩] 50 =
      (.json 200 "Password reset successful.",
        saveUser
          [⟨1, "A", "a@x.com", bcryptHash "P1" 10, "user", 0,
            some ⟨"a@x.com", "sec", "30m", 0⟩, some 100⟩]
          (consumeResetToken
            ⟨1, "A", "a@x.com", bcryptHash "P1" 10, "user", 0,
              some ⟨"a@x.com", "sec", "30m", 0⟩, some 100⟩ "P2")) ∧
      (consumeResetToken
        ⟨1, "A", "a@x.com", bcryptHash "P1" 10, "user", 0,
          some ⟨"a@x.com", "sec", "30m", 0⟩, some 100⟩ "P2").password
        = bcryptHash "P2" 10 ∧
      (consumeResetToken
        ⟨1, "A", "a@x.com", bcryptHash "P1" 10, "user", 0,
          some ⟨"a@x.com", "sec", "30m", 0⟩, some 100⟩ "P2").resetToken = none ∧
      (consumeResetToken
        ⟨1, "A", "a@x.com", bcryptHash "P1" 10, "user", 0,
          some ⟨"a@x.com", "sec", "30m", 0⟩, some 100⟩ "P2").resetTokenExpiration
        = none ∧
      bcryptCompare "P1"
        (consumeResetToken
          ⟨1, "A", "a@x.com", bcryptHash "P1" 10, "user", 0,
            some ⟨"a@x.com", "sec", "30m", 0⟩, some 100⟩ "P2").password = false ∧
      bcryptCompare "P2"
        (consumeResetToken
          ⟨1, "A", "a@x.com", bcryptHash "P1" 10, "user", 0,
            some ⟨"a@x.com", "sec", "30m", 0⟩, some 100⟩ "P2").password = true) :=
  ⟨by decide, by decide, rfl, by decide,
   resetPassword_valid_token_success ⟨"a@x.com", "sec", "30m", 0⟩ "P2" "P1"
     [⟨1, "A", "a@x.com", bcryptHash "P1" 10, "user", 0,
       some ⟨"a@x.com", "sec", "30m", 0⟩, some 100⟩] 50
     ⟨1, "A", "a@x.com", bcryptHash "P1" 10, "user", 0,
       some ⟨"a@x.com", "sec", "30m", 0⟩, some 100⟩
     (by decide) (by decide) rfl (by decide)⟩

/-- C3 counterexample: two forgotPassword requests for the same email in
the same issued-at second (1000 ms and 1500 ms) deterministically produce
the identical token, so a resetPassword carrying the FIRST token still
finds a matching record and succeeds with 200, although the claim says it
must fail; the first expiration window (1000 + 18000000) has not passed
at request time 2000. -/
theorem second_forgot_same_second_token_still_works :
    (1000 : Nat) ≠ 1500 ∧
    (2000 : Nat) < 1000 + 18000000 ∧
    (resetPassword (jwtSign "b@x.com" "sec" "30m" 1000) "P2"
        (forgotPassword "b@x.com"
          (forgotPassword "b@x.com"
            [⟨1, "B", "b@x.com", bcryptHash "P1" 10, "user", 0, none, none⟩]
            "sec" 1000).store
          "sec" 1500).store
        2000).1 = .json 200 "Password reset successful." := by
  decide

/-- C3 (amended): a second forgotPassword for the same email overwrites
the stored reset token, and provided the two requests fall in distinct
issued-at seconds (so the deterministic jwt differs), a resetPassword
carrying the first token finds no matching record and fails with 404 at
any later time, even inside the first expiration window; the store is
left unchanged. -/
theorem second_forgot_invalidates_first_token (email secret pw : String)
    (store : List User) (t1 t2 t3 : Nat) (u : User)
    (hids : uniqueIds store) (he : email ≠ "")
    (hu : findOneByEmail store email = some u)
    (hfresh : ∀ v ∈ store, v.resetToken ≠ some (jwtSign email secret "30m" t1))
    (hsec : t1 / 1000 ≠ t2 / 1000) (hp : pw ≠ "") :
    resetPassword (jwtSign email secret "30m" t1) pw
        (forgotPassword email (forgotPassword email store secret t1).store
          secret t2).store t3 =
      (.err 404 "Password reset token expired or invalid.",
        (forgotPassword email (forgotPassword email store secret t1).store
          secret t2).store) := by
  have hue : u.email = email := email_of_findOneByEmail hu
  have hs1 : (forgotPassword email store secret t1).store
      = saveUser store (issueResetToken u secret t1) := by
    simp [forgotPassword, he, hu]
  have hf1 : findOneByEmail (saveUser store (issueResetToken u secret t1)) email
      = some (issueResetToken u secret t1) :=
    findOneByEmail_saveUser hids hu rfl rfl
  have hs2 : (forgotPassword email
        (saveUser store (issueResetToken u secret t1)) secret t2).store
      = saveUser (saveUser store (issueResetToken u secret t1))
          (issueResetToken (issueResetToken u secret t1) secret t2) := by
    simp [forgotPassword, he, hf1]
  rw [hs1, hs2]
  have hnone : (saveUser (saveUser store (issueResetToken u secret t1))
        (issueResetToken (issueResetToken u secret t1) secret t2)).find?
        (resetMatch (jwtSign email secret "30m" t1) t3) = none := by
    rw [List.find?_eq_none]
    intro v hv hmatch
    have htok : v.resetToken = some (jwtSign email secret "30m" t1) := by
      rw [resetMatch, Bool.and_eq_true] at hmatch
      simpa using hmatch.1
    rcases mem_saveUser hv with hv2 | ⟨hv1, hvid⟩
    · rw [hv2, issueResetToken] at htok
      simp only [jwtSign, issueResetToken, Option.some.injEq, Jwt.mk.injEq] at htok
      exact hsec (htok.2.2.2.symm)
    · rcases mem_saveUser hv1 with hv3 | ⟨hv0, _⟩
      · exact hvid (by rw [hv3, issueResetToken, issueResetToken])
      · exact hfresh v hv0 htok
  simp [resetPassword, hp, hnone]

/-- Witness for the amended C3: requests at 1000 ms and 2500 ms (seconds
1 and 2), reset attempted with the first token at 3000 ms. -/
theorem second_forgot_invalidates_first_token_witness :
    uniqueIds [(⟨1, "B", "b@x.com", bcryptHash "P1" 10, "user", 0, none, none⟩ : User)] ∧
    ("b@x.com" : String) ≠ "" ∧
    findOneByEmail [(⟨1, "B", "b@x.com", bcryptHash "P1" 10, "user", 0, none, none⟩ : User)]
      "b@x.com" = some ⟨1, "B", "b@x.com", bcryptHash "P1" 10, "user", 0, none, none⟩ ∧
    (∀ v ∈ [(⟨1, "B", "b@x.com", bcryptHash "P1" 10, "user", 0, none, none⟩ : User)],
      v.resetToken ≠ some (jwtSign "b@x.com" "sec" "30m" 1000)) ∧
    (1000 : Nat) / 1000 ≠ 2500 / 1000 ∧
    ("P2" : String) ≠ "" ∧
    resetPassword (jwtSign "b@x.com" "sec" "30m" 1000) "P2"
        (forgotPassword "b@x.com"
          (forgotPassword "b@x.com"
            [⟨1, "B", "b@x.com", bcryptHash "P1" 10, "user", 0, none, none⟩]
            "sec" 1000).store
          "sec" 2500).store 3000 =
      (.err 404 "Password reset token expired or invalid.",
        (forgotPassword "b@x.com"
          (forgotPassword "b@x.com"
            [⟨1, "B", "b@x.com", bcryptHash "P1" 10, "user", 0, none, none⟩]
            "sec" 1000).store
          "sec" 2500).store) :=
  ⟨by unfold uniqueIds; decide, by decide, by decide, by decide, by decide, by decide,
   second_forgot_invalidates_first_token "b@x.com" "sec" "P2"
     [⟨1, "B", "b@x.com", bcryptHash "P1" 10, "user", 0, none, none⟩] 1000 2500 3000
     ⟨1, "B", "b@x.com", bcryptHash "P1" 10, "user", 0, none, none⟩
     (by unfold uniqueIds; decide) (by decide) (by decide) (by decide)
     (by decide) (by decide)⟩
